import Mathlib

/-!
Verification development for the `subs_overlay` overlay library.

The definitions below are a shallow embedding of the Rust sources:

* `src/color_utils.rs` — the color codec (`is_valid_color`,
  `hex_to_argb_u32`, `to_slint_color_string`);
* `src/lib.rs` — the `OverlayManager` (registry of overlays guarded by a
  mutex, thread-local window holder, GUI-thread hand-off queue).

Rust strings are modeled as `List Char` (all inputs relevant to the claims
are ASCII, where byte indexing and character indexing coincide).  Machine
integers (`u32`) are modeled as `Nat`; every arithmetic expression in the
embedded code is bounded below `2 ^ 32` (the accumulating parser carries the
explicit `checked_mul`/`checked_add` overflow guard of
`u32::from_str_radix`), so no wraparound modeling is needed.
-/

namespace SubsOverlay

/-! ### Color codec (`src/color_utils.rs`) -/

/-- `char::to_digit(16)` from Rust core: value of one hexadecimal digit,
on the character's Unicode scalar value (`'0'`/`'9'` are 48/57, `'a'`/`'f'`
are 97/102, `'A'`/`'F'` are 65/70). -/
def hexDigitVal (c : Char) : Option Nat :=
  if 48 ≤ c.toNat ∧ c.toNat ≤ 57 then some (c.toNat - 48)
  else if 97 ≤ c.toNat ∧ c.toNat ≤ 102 then some (c.toNat - 97 + 10)
  else if 65 ≤ c.toNat ∧ c.toNat ≤ 70 then some (c.toNat - 65 + 10)
  else none

/-- `c` is an ASCII hexadecimal digit. -/
def isHexChar (c : Char) : Bool :=
  (hexDigitVal c).isSome

/-- Digit-accumulation loop of `u32::from_str_radix(_, 16)`, with the
`checked_mul`/`checked_add` overflow guard of the `u32` target type. -/
def parseHexAcc : Nat → List Char → Option Nat
  | acc, [] => some acc
  | acc, c :: cs =>
    match hexDigitVal c with
    | some d => if acc * 16 + d < 2 ^ 32 then parseHexAcc (acc * 16 + d) cs else none
    | none => none

/-- Digit loop of `u32::from_str_radix` after a leading `'-'` sign: the
accumulator starts at `0` and every `checked_sub` of a nonzero digit fails,
so the parse succeeds (with value `0`) only on a string of `'0'` digits. -/
def parseNegZeros : List Char → Option Nat
  | [] => some 0
  | c :: cs =>
    match hexDigitVal c with
    | some 0 => parseNegZeros cs
    | _ => none

/-- `u32::from_str_radix(s, 16)`: optional leading `'+'`/`'-'` sign followed
by at least one digit in base 16. -/
def from_str_radix_16 (s : List Char) : Option Nat :=
  match s with
  | [] => none
  | c :: rest =>
    if c = '+' then (if rest.isEmpty then none else parseHexAcc 0 rest)
    else if c = '-' then (if rest.isEmpty then none else parseNegZeros rest)
    else parseHexAcc 0 (c :: rest)

/-- `str::trim_start_matches(c)`: removes every leading occurrence of the
character `t`. -/
def trimStartChar (t : Char) : List Char → List Char
  | [] => []
  | c :: cs => if c = t then trimStartChar t cs else c :: cs

/-- `str::trim_start_matches("0x")`: removes every leading occurrence of the
two-character sequence `0x`. -/
def trimStart0x : List Char → List Char
  | c1 :: c2 :: rest =>
    if c1 = '0' ∧ c2 = 'x' then trimStart0x rest else c1 :: c2 :: rest
  | s => s

/-- The prefix stripping shared by `is_valid_color` and `hex_to_argb_u32`:
`color.trim_start_matches('#').trim_start_matches("0x")`. -/
def strip_color_prefixes (color : List Char) : List Char :=
  trimStart0x (trimStartChar '#' color)

/-- `color.starts_with('#')`. -/
def starts_with_hash : List Char → Bool
  | '#' :: _ => true
  | _ => false

/-- `color.starts_with("0x")`. -/
def starts_with_0x : List Char → Bool
  | '0' :: 'x' :: _ => true
  | _ => false

/-- `color_utils::is_valid_color`. -/
def is_valid_color (color : List Char) : Bool :=
  if !(starts_with_hash color || starts_with_0x color) then false
  else
    let hex := strip_color_prefixes color
    hex.length == 3 || hex.length == 4 || hex.length == 6 || hex.length == 8

/-- `color_utils::hex_to_argb_u32`. -/
def hex_to_argb_u32 (color : List Char) : Nat :=
  let hex := strip_color_prefixes color
  if hex.length = 3 then
    let r := (from_str_radix_16 (hex.take 1)).getD 0xF
    let g := (from_str_radix_16 ((hex.drop 1).take 1)).getD 0xF
    let b := (from_str_radix_16 ((hex.drop 2).take 1)).getD 0xF
    0xFF000000 ||| ((r * 17) <<< 16) ||| ((g * 17) <<< 8) ||| (b * 17)
  else if hex.length = 4 then
    let a := (from_str_radix_16 (hex.take 1)).getD 0xF
    let r := (from_str_radix_16 ((hex.drop 1).take 1)).getD 0xF
    let g := (from_str_radix_16 ((hex.drop 2).take 1)).getD 0xF
    let b := (from_str_radix_16 ((hex.drop 3).take 1)).getD 0xF
    ((a * 17) <<< 24) ||| ((r * 17) <<< 16) ||| ((g * 17) <<< 8) ||| (b * 17)
  else if hex.length = 6 then
    0xFF000000 ||| (from_str_radix_16 hex).getD 0xFFFFFF
  else if hex.length = 8 then
    (from_str_radix_16 hex).getD 0xFFFFFFFF
  else
    0xFFFFFFFF

/-- `color_utils::to_slint_color_string`: strips leading `'#'` characters
(only; the `0x` prefix is not stripped here), then normalizes 8-digit input
by dropping the first two characters, passes 6-digit input through, and
falls back to `"#000000"` otherwise. -/
def to_slint_color_string (color : List Char) : List Char :=
  let hex := trimStartChar '#' color
  if hex.length = 8 then '#' :: hex.drop 2
  else if hex.length = 6 then '#' :: hex
  else "#000000".data

/-! ### Overlay manager (`src/lib.rs`)

The manager state is embedded explicitly:

* `overlays` — the `Arc<Mutex<HashMap<OverlayId, OverlayWindow>>>` registry,
  as an association list (fresh keys, so insertion order is immaterial);
* `window_holder` — the `WINDOW_HOLDER` thread-local map of strong
  keep-alive references (`overlay id ↦ window object`);
* `window_text` — the `text_content` property currently held by each live
  window object (set directly during `create_overlay`, read back by
  `get_overlay_config`);
* `pending_ui` — the FIFO queue of closures handed to
  `slint::invoke_from_event_loop` but not yet executed by the GUI thread;
* `ui_log` — the log of direct (same-thread) calls made on window objects;
* `next_id` — a fresh-identifier supply modeling `Uuid::new_v4()` (and the
  identity of newly constructed `OverlayUI` objects);
* `poisoned` — whether the registry mutex is poisoned; every manager
  operation acquires it with `.lock().unwrap()`, which panics then.

External collaborator calls (`OverlayUI::new`, `window.show()`,
`slint::invoke_from_event_loop`) are modeled as succeeding; their effects
are recorded in `ui_log`/`pending_ui`. -/

/-- `TextConfig` from `src/lib.rs`.  The `f32` font size is only ever stored
and copied by the code under study, so it is modeled as an uninterpreted
`Nat` payload. -/
structure TextConfig where
  content : List Char
  font_size : Nat
  color : List Char
  position : Int × Int
deriving DecidableEq, Repr

/-- `OverlayConfig` from `src/lib.rs`. -/
structure OverlayConfig where
  text : TextConfig
  width : Int
  height : Int
  transparent : Bool
  always_on_top : Bool
  ignore_input : Bool
deriving DecidableEq, Repr

/-- `OverlayWindow` from `src/lib.rs`: weak window reference plus the stored
configuration. -/
structure OverlayWindow where
  window_weak : Nat
  config : OverlayConfig
deriving DecidableEq, Repr

/-- A closure queued on the GUI thread via `slint::invoke_from_event_loop`. -/
inductive UiEvent where
  | set_text_content (win : Nat) (text : List Char)
  | apply_props (win : Nat) (transparent always_on_top : Bool)
  | release_holder (id : Nat)
deriving DecidableEq, Repr

/-- A direct (calling-thread) call made on a live window object. -/
inductive UiCall where
  | set_text_content (win : Nat) (text : List Char)
  | set_font_size (win : Nat) (size : Nat)
  | set_text_color (win : Nat) (argb : Nat)
  | set_win_size (win : Nat) (w h : Int)
  | show_win (win : Nat)
  | hide_win (win : Nat)
deriving DecidableEq, Repr

/-- The observable state of an `OverlayManager` process. -/
structure ManagerState where
  overlays : List (Nat × OverlayWindow)
  window_holder : List (Nat × Nat)
  window_text : List (Nat × List Char)
  pending_ui : List UiEvent
  ui_log : List UiCall
  next_id : Nat
  poisoned : Bool
deriving DecidableEq, Repr

/-- Outcome of one Rust call: a panic (unwinding), an `Err`, or an `Ok`. -/
inductive OpResult (α : Type) where
  | panicked : OpResult α
  | err : String → OpResult α
  | ok : α → OpResult α
deriving DecidableEq, Repr

/-- `HashMap::get`. -/
def alookup {β : Type} (k : Nat) : List (Nat × β) → Option β
  | [] => none
  | p :: ps => if p.1 = k then some p.2 else alookup k ps

/-- `HashMap::remove` (the resulting map). -/
def aerase {β : Type} (k : Nat) : List (Nat × β) → List (Nat × β)
  | [] => []
  | p :: ps => if p.1 = k then aerase k ps else p :: aerase k ps

/-- `HashMap::insert` (replacing any entry already present for the key). -/
def ainsert {β : Type} (k : Nat) (v : β) (l : List (Nat × β)) :
    List (Nat × β) :=
  aerase k l ++ [(k, v)]

/-- In-place mutation through `HashMap::get_mut`. -/
def aupdate {β : Type} (k : Nat) (f : β → β) : List (Nat × β) →
    List (Nat × β)
  | [] => []
  | p :: ps =>
    if p.1 = k then (p.1, f p.2) :: aupdate k f ps else p :: aupdate k f ps

/-- A weak window reference upgrades successfully iff some strong keep-alive
reference to that window object is still held in `WINDOW_HOLDER`. -/
def win_alive (st : ManagerState) (w : Nat) : Bool :=
  st.window_holder.any (fun p => p.2 = w)

/-- `OverlayManager::new` (plus empty thread-local/GUI-queue surroundings). -/
def initState : ManagerState :=
  { overlays := [], window_holder := [], window_text := [], pending_ui := [],
    ui_log := [], next_id := 0, poisoned := false }

/-- `OverlayManager::create_overlay`.  Generates a fresh id, constructs the
window (modeled as succeeding), sets text/font/color directly on it, stores
the strong reference in `WINDOW_HOLDER`, then locks the registry (panicking
if poisoned — note the holder insertion has already happened), inserts the
entry, and marshals `apply_window_properties`' closure to the GUI thread. -/
def create_overlay (st : ManagerState) (config : OverlayConfig) :
    OpResult Nat × ManagerState :=
  let oid := st.next_id
  let win := st.next_id
  let log := st.ui_log ++
    [UiCall.set_text_content win config.text.content,
     UiCall.set_font_size win config.text.font_size,
     UiCall.set_text_color win (hex_to_argb_u32 config.text.color)]
  let holder := ainsert oid win st.window_holder
  let wtext := ainsert win config.text.content st.window_text
  if st.poisoned then
    (OpResult.panicked,
     { st with ui_log := log, window_holder := holder, window_text := wtext })
  else
    (OpResult.ok oid,
     { st with
       ui_log := log, window_holder := holder, window_text := wtext,
       overlays := ainsert oid ⟨win, config⟩ st.overlays,
       pending_ui := st.pending_ui ++
         [UiEvent.apply_props win config.transparent config.always_on_top],
       next_id := st.next_id + 1 })

/-- `OverlayManager::show_overlay`: on a present id whose weak reference
upgrades, sets size and font directly and shows the window; otherwise a
silent no-op.  Always `Ok` (panics only on a poisoned lock). -/
def show_overlay (st : ManagerState) (oid : Nat) :
    OpResult Unit × ManagerState :=
  if st.poisoned then (OpResult.panicked, st)
  else
    match alookup oid st.overlays with
    | some ow =>
      if win_alive st ow.window_weak then
        (OpResult.ok (),
         { st with ui_log := st.ui_log ++
            [UiCall.set_win_size ow.window_weak ow.config.width ow.config.height,
             UiCall.set_font_size ow.window_weak ow.config.text.font_size,
             UiCall.show_win ow.window_weak] })
      else (OpResult.ok (), st)
    | none => (OpResult.ok (), st)

/-- `OverlayManager::hide_overlay`. -/
def hide_overlay (st : ManagerState) (oid : Nat) :
    OpResult Unit × ManagerState :=
  if st.poisoned then (OpResult.panicked, st)
  else
    match alookup oid st.overlays with
    | some ow =>
      if win_alive st ow.window_weak then
        (OpResult.ok (),
         { st with ui_log := st.ui_log ++ [UiCall.hide_win ow.window_weak] })
      else (OpResult.ok (), st)
    | none => (OpResult.ok (), st)

/-- `OverlayManager::update_text`: on a present id, mutates the stored
config's text content and marshals a `set_text_content` closure to the GUI
thread; on an unknown id, a silent `Ok` no-op. -/
def update_text (st : ManagerState) (oid : Nat) (text : List Char) :
    OpResult Unit × ManagerState :=
  if st.poisoned then (OpResult.panicked, st)
  else
    match alookup oid st.overlays with
    | some ow =>
      let setContent : OverlayWindow → OverlayWindow :=
        fun o => { o with config.text.content := text }
      (OpResult.ok (),
       { st with
         overlays := aupdate oid setContent st.overlays,
         pending_ui := st.pending_ui ++
           [UiEvent.set_text_content ow.window_weak text] })
    | none => (OpResult.ok (), st)

/-- `OverlayManager::update_position`: on a present id, mutates only the
stored config's `text.position`; nothing is sent to the live window. -/
def update_position (st : ManagerState) (oid : Nat) (x y : Int) :
    OpResult Unit × ManagerState :=
  if st.poisoned then (OpResult.panicked, st)
  else
    match alookup oid st.overlays with
    | some _ =>
      let setPos : OverlayWindow → OverlayWindow :=
        fun o => { o with config.text.position := (x, y) }
      (OpResult.ok (), { st with overlays := aupdate oid setPos st.overlays })
    | none => (OpResult.ok (), st)

/-- `OverlayManager::remove_overlay`: removes the entry from the registry
synchronously; if one was present, marshals the release of the keep-alive
reference (`WINDOW_HOLDER` removal) to the GUI thread.  Unknown ids are an
`Ok` no-op. -/
def remove_overlay (st : ManagerState) (oid : Nat) :
    OpResult Unit × ManagerState :=
  if st.poisoned then (OpResult.panicked, st)
  else
    match alookup oid st.overlays with
    | some _ =>
      (OpResult.ok (),
       { st with overlays := aerase oid st.overlays,
                 pending_ui := st.pending_ui ++ [UiEvent.release_holder oid] })
    | none => (OpResult.ok (), st)

/-- `OverlayManager::list_overlays`. -/
def list_overlays (st : ManagerState) : OpResult (List Nat) × ManagerState :=
  if st.poisoned then (OpResult.panicked, st)
  else (OpResult.ok (st.overlays.map Prod.fst), st)

/-- `OverlayManager::get_overlay_config`: returns the stored config, with
the content read back from the live window when the weak reference
upgrades; errs with "Overlay not found" on an unknown id. -/
def get_overlay_config (st : ManagerState) (oid : Nat) :
    OpResult OverlayConfig × ManagerState :=
  if st.poisoned then (OpResult.panicked, st)
  else
    match alookup oid st.overlays with
    | some ow =>
      if win_alive st ow.window_weak then
        (OpResult.ok { ow.config with text.content :=
            (alookup ow.window_weak st.window_text).getD ow.config.text.content },
         st)
      else (OpResult.ok ow.config, st)
    | none => (OpResult.err "Overlay not found", st)

/-- The value computed by the digit-accumulation loop when nothing fails. -/
def foldVal : Nat → List Char → Nat
  | acc, [] => acc
  | acc, c :: cs => foldVal (acc * 16 + (hexDigitVal c).getD 0) cs

/-- Modelled from the spec: "a `#RRGGBB` string" — the character `'#'`
followed by exactly six hexadecimal digits.  (Spec-side predicate used to
compare `to_slint_color_string`'s output with the claim's format.) -/
def spec_display_rgb (s : List Char) : Bool :=
  match s with
  | '#' :: rest => rest.length == 6 && rest.all isHexChar
  | _ => false

/-! ### Concrete fixtures -/

/-- The example configuration from the crate documentation of `lib.rs`. -/
def sampleConfig : OverlayConfig :=
  { text := { content := "Hello, World!".data, font_size := 24,
              color := "#FFFFFFFF".data, position := (100, 100) },
    width := 300, height := 100, transparent := true, always_on_top := true,
    ignore_input := true }

/-- The sample configuration with a color string rejected by
`is_valid_color` (no `#`/`0x` prefix). -/
def badColorConfig : OverlayConfig :=
  { sampleConfig with text.color := "x".data }

/-- A manager state whose registry mutex is poisoned. -/
def poisonedState : ManagerState :=
  { initState with poisoned := true }

/-! ### Association-list lemmas -/

theorem alookup_aerase_self {β : Type} (k : Nat) (l : List (Nat × β)) :
    alookup k (aerase k l) = none := by
  induction l with
  | nil => rfl
  | cons p ps ih =>
    by_cases h : p.1 = k
    · simpa [aerase, h] using ih
    · simp [aerase, h, alookup, ih]

theorem not_mem_map_fst_aerase {β : Type} (k : Nat) (l : List (Nat × β)) :
    k ∉ (aerase k l).map Prod.fst := by
  induction l with
  | nil => simp [aerase]
  | cons p ps ih =>
    by_cases h : p.1 = k
    · simpa [aerase, h] using ih
    · simp [aerase, h, ih]
      exact fun he => h he.symm

theorem alookup_append {β : Type} (k : Nat) (l₁ l₂ : List (Nat × β)) :
    alookup k (l₁ ++ l₂) =
      match alookup k l₁ with
      | some v => some v
      | none => alookup k l₂ := by
  induction l₁ with
  | nil => simp [alookup]
  | cons p ps ih =>
    by_cases h : p.1 = k <;> simp [alookup, h, ih]

theorem alookup_ainsert_self {β : Type} (k : Nat) (v : β)
    (l : List (Nat × β)) : alookup k (ainsert k v l) = some v := by
  simp [ainsert, alookup_append, alookup_aerase_self, alookup]

theorem alookup_aupdate_self {β : Type} (k : Nat) (f : β → β)
    (l : List (Nat × β)) :
    alookup k (aupdate k f l) = Option.map f (alookup k l) := by
  induction l with
  | nil => rfl
  | cons p ps ih =>
    by_cases h : p.1 = k <;> simp [aupdate, alookup, h, ih]

theorem alookup_aupdate_other {β : Type} (k k' : Nat) (f : β → β)
    (l : List (Nat × β)) (h : k' ≠ k) :
    alookup k' (aupdate k f l) = alookup k' l := by
  induction l with
  | nil => rfl
  | cons p ps ih =>
    by_cases hp : p.1 = k
    · have hk : ¬ (k = k') := fun he => h he.symm
      simp [aupdate, alookup, hp, hk, ih]
    · by_cases hp' : p.1 = k' <;> simp [aupdate, alookup, hp, hp', ih, h]

/-! ### Claims about the overlay manager -/

/-- Claim C10: for every id not present in the registry, `remove_overlay`
returns `Ok` (not an error) and leaves the whole state — registry and
thread-local window holder included — unchanged; hence removing the same id
twice is equivalent to removing it once. -/
theorem c10_remove_unknown_ok_idempotent (st : ManagerState) (oid : Nat)
    (hp : st.poisoned = false) :
    (alookup oid st.overlays = none →
      remove_overlay st oid = (OpResult.ok (), st)) ∧
    remove_overlay (remove_overlay st oid).2 oid =
      (OpResult.ok (), (remove_overlay st oid).2) := by
  constructor
  · intro h
    simp [remove_overlay, hp, h]
  · cases hlook : alookup oid st.overlays with
    | none => simp [remove_overlay, hp, hlook]
    | some ow => simp [remove_overlay, hp, hlook, alookup_aerase_self]

/-- Witness for C10 at the freshly created manager and id `0`. -/
theorem c10_remove_unknown_ok_idempotent_witness :
    (alookup 0 initState.overlays = none →
      remove_overlay initState 0 = (OpResult.ok (), initState)) ∧
    remove_overlay (remove_overlay initState 0).2 0 =
      (OpResult.ok (), (remove_overlay initState 0).2) :=
  c10_remove_unknown_ok_idempotent initState 0 rfl

/-- Claim C5: for every id returned by `create_overlay`, after
`remove_overlay id` returns, `list_overlays` no longer contains that id:
the logical removal from the registry map is synchronous, while the release
of the GUI-thread keep-alive reference is only queued on the GUI thread
(the window holder is untouched and a `release_holder` closure is
pending). -/
theorem c5_remove_synchronous (st : ManagerState) (cfg : OverlayConfig)
    (id : Nat) (st1 : ManagerState) (hp : st.poisoned = false)
    (hc : create_overlay st cfg = (OpResult.ok id, st1)) :
    (remove_overlay st1 id).1 = OpResult.ok () ∧
    id ∉ ((remove_overlay st1 id).2).overlays.map Prod.fst ∧
    (list_overlays ((remove_overlay st1 id).2)).1 =
      OpResult.ok (((remove_overlay st1 id).2).overlays.map Prod.fst) ∧
    ((remove_overlay st1 id).2).window_holder = st1.window_holder ∧
    UiEvent.release_holder id ∈ ((remove_overlay st1 id).2).pending_ui := by
  rw [create_overlay] at hc
  simp only [hp, Bool.false_eq_true, if_false, Prod.mk.injEq] at hc
  obtain ⟨hid, hst⟩ := hc
  cases hid
  subst hst
  refine ⟨?_, ?_, ?_, ?_, ?_⟩
  · simp [remove_overlay, hp, alookup_ainsert_self]
  · simp only [remove_overlay, hp, Bool.false_eq_true, if_false,
      alookup_ainsert_self]
    exact not_mem_map_fst_aerase _ _
  · simp [remove_overlay, hp, alookup_ainsert_self, list_overlays]
  · simp [remove_overlay, hp, alookup_ainsert_self]
  · simp [remove_overlay, hp, alookup_ainsert_self]

/-- Witness for C5: create on the fresh manager, then remove. -/
theorem c5_remove_synchronous_witness :
    (remove_overlay (create_overlay initState sampleConfig).2 0).1 =
      OpResult.ok () ∧
    0 ∉ ((remove_overlay (create_overlay initState sampleConfig).2
          0).2).overlays.map Prod.fst ∧
    (list_overlays ((remove_overlay (create_overlay initState sampleConfig).2
          0).2)).1 =
      OpResult.ok (((remove_overlay (create_overlay initState
          sampleConfig).2 0).2).overlays.map Prod.fst) ∧
    ((remove_overlay (create_overlay initState sampleConfig).2
          0).2).window_holder =
      ((create_overlay initState sampleConfig).2).window_holder ∧
    UiEvent.release_holder 0 ∈
      ((remove_overlay (create_overlay initState sampleConfig).2
          0).2).pending_ui :=
  c5_remove_synchronous initState sampleConfig 0
    (create_overlay initState sampleConfig).2 rfl rfl

/-- Claim C8: for every id present in the registry, `update_position`
changes only that entry's stored `text.position`: the entry's other config
fields, every other registry entry, the window holder, the window state,
the direct-call log and the GUI-thread queue are all unchanged, and nothing
is marshaled to the live window. -/
theorem c8_update_position_frame (st : ManagerState) (oid : Nat) (x y : Int)
    (ow : OverlayWindow) (hp : st.poisoned = false)
    (hlook : alookup oid st.overlays = some ow) :
    (update_position st oid x y).1 = OpResult.ok () ∧
    alookup oid (update_position st oid x y).2.overlays =
      some { ow with config.text.position := (x, y) } ∧
    (∀ k, k ≠ oid →
      alookup k (update_position st oid x y).2.overlays =
        alookup k st.overlays) ∧
    (update_position st oid x y).2.window_holder = st.window_holder ∧
    (update_position st oid x y).2.window_text = st.window_text ∧
    (update_position st oid x y).2.pending_ui = st.pending_ui ∧
    (update_position st oid x y).2.ui_log = st.ui_log ∧
    (update_position st oid x y).2.next_id = st.next_id ∧
    (update_position st oid x y).2.poisoned = st.poisoned := by
  refine ⟨?_, ?_, ?_, ?_, ?_, ?_, ?_, ?_, ?_⟩
  case refine_3 =>
    intro k hk
    simp only [update_position, hp, Bool.false_eq_true, if_false, hlook]
    exact alookup_aupdate_other oid k _ st.overlays hk
  all_goals simp [update_position, hp, hlook, alookup_aupdate_self]

/-- Witness for C8: move the overlay created on the fresh manager. -/
theorem c8_update_position_frame_witness :
    (update_position (create_overlay initState sampleConfig).2 0 5 7).1 =
      OpResult.ok () ∧
    alookup 0 (update_position (create_overlay initState sampleConfig).2
        0 5 7).2.overlays =
      some { (⟨0, sampleConfig⟩ : OverlayWindow) with
             config.text.position := ((5 : Int), (7 : Int)) } ∧
    (∀ k, k ≠ 0 →
      alookup k (update_position (create_overlay initState sampleConfig).2
          0 5 7).2.overlays =
        alookup k (create_overlay initState sampleConfig).2.overlays) ∧
    (update_position (create_overlay initState sampleConfig).2
        0 5 7).2.window_holder =
      (create_overlay initState sampleConfig).2.window_holder ∧
    (update_position (create_overlay initState sampleConfig).2
        0 5 7).2.window_text =
      (create_overlay initState sampleConfig).2.window_text ∧
    (update_position (create_overlay initState sampleConfig).2
        0 5 7).2.pending_ui =
      (create_overlay initState sampleConfig).2.pending_ui ∧
    (update_position (create_overlay initState sampleConfig).2
        0 5 7).2.ui_log =
      (create_overlay initState sampleConfig).2.ui_log ∧
    (update_position (create_overlay initState sampleConfig).2
        0 5 7).2.next_id =
      (create_overlay initState sampleConfig).2.next_id ∧
    (update_position (create_overlay initState sampleConfig).2
        0 5 7).2.poisoned =
      (create_overlay initState sampleConfig).2.poisoned :=
  c8_update_position_frame (create_overlay initState sampleConfig).2 0 5 7
    ⟨0, sampleConfig⟩ rfl rfl

/-- Claim C1, counterexample: `create_overlay` on a config whose color fails
`is_valid_color` does not fail with `InvalidColor` — it succeeds, returns an
id, and inserts the entry, so `list_overlays` changes from `[]` to `[0]`. -/
theorem c1_create_invalid_color_counterexample :
    is_valid_color badColorConfig.text.color = false ∧
    (list_overlays initState).1 = OpResult.ok [] ∧
    (create_overlay initState badColorConfig).1 = OpResult.ok 0 ∧
    alookup 0 (create_overlay initState badColorConfig).2.overlays =
      some ⟨0, badColorConfig⟩ ∧
    (list_overlays (create_overlay initState badColorConfig).2).1 =
      OpResult.ok [0] := by
  refine ⟨rfl, rfl, rfl, ?_, rfl⟩
  simp [create_overlay, initState, alookup_ainsert_self]

/-- Claim C1 as amended: `create_overlay` performs no color validation.  For
every config whose `text.color` fails `is_valid_color` (as for any other),
creation on an unpoisoned state succeeds: it returns the fresh id, inserts
the entry with the given config unchanged, and the invalid color reaches the
window only through `hex_to_argb_u32`'s lenient fallback. -/
theorem c1_create_accepts_invalid_color (st : ManagerState)
    (cfg : OverlayConfig) (hp : st.poisoned = false)
    (hbad : is_valid_color cfg.text.color = false) :
    (create_overlay st cfg).1 = OpResult.ok st.next_id ∧
    alookup st.next_id (create_overlay st cfg).2.overlays =
      some ⟨st.next_id, cfg⟩ ∧
    UiCall.set_text_color st.next_id (hex_to_argb_u32 cfg.text.color) ∈
      (create_overlay st cfg).2.ui_log := by
  refine ⟨?_, ?_, ?_⟩ <;> simp [create_overlay, hp, alookup_ainsert_self]

/-- Witness for C1 on the fresh manager and the invalid color `"x"`. -/
theorem c1_create_accepts_invalid_color_witness :
    (create_overlay initState badColorConfig).1 = OpResult.ok 0 ∧
    alookup 0 (create_overlay initState badColorConfig).2.overlays =
      some ⟨0, badColorConfig⟩ ∧
    UiCall.set_text_color 0 (hex_to_argb_u32 badColorConfig.text.color) ∈
      (create_overlay initState badColorConfig).2.ui_log :=
  c1_create_accepts_invalid_color initState badColorConfig rfl rfl

/-- Claim C2, counterexample: on an id absent from the registry,
`show_overlay`, `hide_overlay` and `update_text` all return `Ok` (silent
no-ops) instead of failing with `OverlayNotFound`. -/
theorem c2_unknown_id_counterexample :
    alookup 0 initState.overlays = none ∧
    show_overlay initState 0 = (OpResult.ok (), initState) ∧
    hide_overlay initState 0 = (OpResult.ok (), initState) ∧
    update_text initState 0 "hi".data = (OpResult.ok (), initState) := by
  exact ⟨rfl, rfl, rfl, rfl⟩

/-- Claim C2 as amended: for every id not present in the registry,
`show_overlay`, `hide_overlay` and the lower-level `update_text` all return
`Ok` as silent no-ops, leaving the state unchanged — no `OverlayNotFound`
error exists for them; the only operation that reports a missing id is
`get_overlay_config`, with the error "Overlay not found". -/
theorem c2_unknown_id_silent_noop (st : ManagerState) (oid : Nat)
    (hp : st.poisoned = false) (h : alookup oid st.overlays = none) :
    show_overlay st oid = (OpResult.ok (), st) ∧
    hide_overlay st oid = (OpResult.ok (), st) ∧
    (∀ text, update_text st oid text = (OpResult.ok (), st)) ∧
    (get_overlay_config st oid).1 = OpResult.err "Overlay not found" := by
  refine ⟨?_, ?_, ?_, ?_⟩ <;>
    simp [show_overlay, hide_overlay, update_text, get_overlay_config, hp, h]

/-- Witness for C2 at the fresh manager and id `0`. -/
theorem c2_unknown_id_silent_noop_witness :
    show_overlay initState 0 = (OpResult.ok (), initState) ∧
    hide_overlay initState 0 = (OpResult.ok (), initState) ∧
    (∀ text, update_text initState 0 text = (OpResult.ok (), initState)) ∧
    (get_overlay_config initState 0).1 = OpResult.err "Overlay not found" :=
  c2_unknown_id_silent_noop initState 0 rfl rfl

/-- Claim C9, counterexample: with a poisoned registry lock, every public
manager operation panics (each acquires the lock with `.lock().unwrap()`);
none surfaces a `LockFailure` error. -/
theorem c9_never_panics_counterexample :
    (create_overlay poisonedState sampleConfig).1 = OpResult.panicked ∧
    (show_overlay poisonedState 0).1 = OpResult.panicked ∧
    (hide_overlay poisonedState 0).1 = OpResult.panicked ∧
    (update_text poisonedState 0 "hi".data).1 = OpResult.panicked ∧
    (update_position poisonedState 0 1 2).1 = OpResult.panicked ∧
    (remove_overlay poisonedState 0).1 = OpResult.panicked ∧
    (list_overlays poisonedState).1 = OpResult.panicked ∧
    (get_overlay_config poisonedState 0).1 = OpResult.panicked := by
  exact ⟨rfl, rfl, rfl, rfl, rfl, rfl, rfl, rfl⟩

/-- Claim C9 as amended: with a healthy (unpoisoned) lock, every public
manager operation returns its outcome as a result and never panics — for
unknown ids and invalid colors included — but mutex poisoning is NOT
surfaced as a `LockFailure` error: since every operation acquires the
registry lock with `.lock().unwrap()`, a poisoned lock makes every one of
them panic. -/
theorem c9_poisoned_lock_panics (st : ManagerState) (oid : Nat)
    (text : List Char) (x y : Int) (cfg : OverlayConfig) :
    ((create_overlay { st with poisoned := true } cfg).1 =
        OpResult.panicked ∧
     (show_overlay { st with poisoned := true } oid).1 = OpResult.panicked ∧
     (hide_overlay { st with poisoned := true } oid).1 = OpResult.panicked ∧
     (update_text { st with poisoned := true } oid text).1 =
        OpResult.panicked ∧
     (update_position { st with poisoned := true } oid x y).1 =
        OpResult.panicked ∧
     (remove_overlay { st with poisoned := true } oid).1 =
        OpResult.panicked ∧
     (list_overlays { st with poisoned := true }).1 = OpResult.panicked ∧
     (get_overlay_config { st with poisoned := true } oid).1 =
        OpResult.panicked) ∧
    ((create_overlay { st with poisoned := false } cfg).1 =
        OpResult.ok st.next_id ∧
     (show_overlay { st with poisoned := false } oid).1 = OpResult.ok () ∧
     (hide_overlay { st with poisoned := false } oid).1 = OpResult.ok () ∧
     (update_text { st with poisoned := false } oid text).1 =
        OpResult.ok () ∧
     (update_position { st with poisoned := false } oid x y).1 =
        OpResult.ok () ∧
     (remove_overlay { st with poisoned := false } oid).1 =
        OpResult.ok () ∧
     (list_overlays { st with poisoned := false }).1 =
        OpResult.ok (st.overlays.map Prod.fst) ∧
     (get_overlay_config { st with poisoned := false } oid).1 ≠
        OpResult.panicked) := by
  refine ⟨⟨?_, ?_, ?_, ?_, ?_, ?_, ?_, ?_⟩, ⟨?_, ?_, ?_, ?_, ?_, ?_, ?_, ?_⟩⟩
  · simp [create_overlay]
  · simp [show_overlay]
  · simp [hide_overlay]
  · simp [update_text]
  · simp [update_position]
  · simp [remove_overlay]
  · simp [list_overlays]
  · simp [get_overlay_config]
  · simp [create_overlay]
  · simp only [show_overlay]
    split
    · simp_all
    · split
      · split <;> rfl
      · rfl
  · simp only [hide_overlay]
    split
    · simp_all
    · split
      · split <;> rfl
      · rfl
  · simp only [update_text]
    split
    · simp_all
    · split <;> rfl
  · simp only [update_position]
    split
    · simp_all
    · split <;> rfl
  · simp only [remove_overlay]
    split
    · simp_all
    · split <;> rfl
  · simp [list_overlays]
  · simp only [get_overlay_config]
    split
    · simp_all
    · split
      · split <;> simp
      · simp

/-! ### Character and prefix-stripping lemmas for the color codec -/

theorem isHexChar_ne_hash {c : Char} (h : isHexChar c = true) : c ≠ '#' := by
  rintro rfl
  exact absurd h (by decide)

theorem isHexChar_ne_x {c : Char} (h : isHexChar c = true) : c ≠ 'x' := by
  rintro rfl
  exact absurd h (by decide)

theorem isHexChar_ne_plus {c : Char} (h : isHexChar c = true) : c ≠ '+' := by
  rintro rfl
  exact absurd h (by decide)

theorem isHexChar_ne_minus {c : Char} (h : isHexChar c = true) : c ≠ '-' := by
  rintro rfl
  exact absurd h (by decide)

theorem trimStartChar_hash_of_hex (l : List Char)
    (h : ∀ c ∈ l, isHexChar c = true) : trimStartChar '#' l = l := by
  cases l with
  | nil => rfl
  | cons c cs =>
    have hc : isHexChar c = true := h c (List.mem_cons_self c cs)
    simp [trimStartChar, isHexChar_ne_hash hc]

theorem trimStart0x_of_hex (l : List Char)
    (h : ∀ c ∈ l, isHexChar c = true) : trimStart0x l = l := by
  match l with
  | [] => rfl
  | [c] => rfl
  | c1 :: c2 :: rest =>
    have hc2 : isHexChar c2 = true := h c2 (by simp)
    have : ¬(c1 = '0' ∧ c2 = 'x') := fun hx => isHexChar_ne_x hc2 hx.2
    simp [trimStart0x, this]

/-- Both recognized prefixes strip cleanly off an all-hex digit payload. -/
theorem strip_color_prefixes_pre (pre l : List Char)
    (hpre : pre = ['#'] ∨ pre = ['0', 'x'])
    (h : ∀ c ∈ l, isHexChar c = true) :
    strip_color_prefixes (pre ++ l) = l := by
  rcases hpre with rfl | rfl
  · show trimStart0x (trimStartChar '#' ('#' :: l)) = l
    rw [show trimStartChar '#' ('#' :: l) = trimStartChar '#' l from by
          simp [trimStartChar],
        trimStartChar_hash_of_hex l h, trimStart0x_of_hex l h]
  · show trimStart0x (trimStartChar '#' ('0' :: 'x' :: l)) = l
    rw [show trimStartChar '#' ('0' :: 'x' :: l) = '0' :: 'x' :: l from by
          simp [trimStartChar],
        show trimStart0x ('0' :: 'x' :: l) = trimStart0x l from by
          simp [trimStart0x],
        trimStart0x_of_hex l h]

/-- Branch selection in `hex_to_argb_u32`: stripped length 3. -/
theorem argb_of_len3 (s : List Char)
    (h : (strip_color_prefixes s).length = 3) :
    hex_to_argb_u32 s =
      0xFF000000 |||
        (((from_str_radix_16 ((strip_color_prefixes s).take 1)).getD 0xF
            * 17) <<< 16) |||
        (((from_str_radix_16
            (((strip_color_prefixes s).drop 1).take 1)).getD 0xF
            * 17) <<< 8) |||
        ((from_str_radix_16
            (((strip_color_prefixes s).drop 2).take 1)).getD 0xF * 17) := by
  simp only [hex_to_argb_u32]
  split_ifs <;> first | omega | rfl

/-- Branch selection in `hex_to_argb_u32`: stripped length 4. -/
theorem argb_of_len4 (s : List Char)
    (h : (strip_color_prefixes s).length = 4) :
    hex_to_argb_u32 s =
      (((from_str_radix_16 ((strip_color_prefixes s).take 1)).getD 0xF
          * 17) <<< 24) |||
        (((from_str_radix_16
            (((strip_color_prefixes s).drop 1).take 1)).getD 0xF
            * 17) <<< 16) |||
        (((from_str_radix_16
            (((strip_color_prefixes s).drop 2).take 1)).getD 0xF
            * 17) <<< 8) |||
        ((from_str_radix_16
            (((strip_color_prefixes s).drop 3).take 1)).getD 0xF * 17) := by
  simp only [hex_to_argb_u32]
  split_ifs <;> first | omega | rfl

/-- Branch selection in `hex_to_argb_u32`: stripped length 6. -/
theorem argb_of_len6 (s : List Char)
    (h : (strip_color_prefixes s).length = 6) :
    hex_to_argb_u32 s =
      0xFF000000 |||
        (from_str_radix_16 (strip_color_prefixes s)).getD 0xFFFFFF := by
  simp only [hex_to_argb_u32]
  split_ifs <;> first | omega | rfl

/-- Branch selection in `hex_to_argb_u32`: stripped length 8. -/
theorem argb_of_len8 (s : List Char)
    (h : (strip_color_prefixes s).length = 8) :
    hex_to_argb_u32 s =
      (from_str_radix_16 (strip_color_prefixes s)).getD 0xFFFFFFFF := by
  simp only [hex_to_argb_u32]
  split_ifs <;> first | omega | rfl

/-- Branch selection in `hex_to_argb_u32`: any other stripped length. -/
theorem argb_of_len_other (s : List Char)
    (h3 : (strip_color_prefixes s).length ≠ 3)
    (h4 : (strip_color_prefixes s).length ≠ 4)
    (h6 : (strip_color_prefixes s).length ≠ 6)
    (h8 : (strip_color_prefixes s).length ≠ 8) :
    hex_to_argb_u32 s = 0xFFFFFFFF := by
  simp only [hex_to_argb_u32]
  split_ifs <;> first | omega | rfl

/-! ### Claims about the color codec -/

/-- Claim C4, counterexample: `is_valid_color` does not check hexadecimal
digit content — `"#GGGGGG"` is accepted even though every character after
the stripped prefix is a non-hex `'G'`, whereas the claim requires
`is_valid("#GGGGGG")` to be false. -/
theorem c4_is_valid_counterexample :
    is_valid_color "#GGGGGG".data = true ∧
    ("#GGGGGG".data.drop 1).all isHexChar = false := by
  exact ⟨by decide, by decide⟩

/-- Claim C4 as amended: `is_valid_color s` is true iff `s` starts with
`'#'` or `"0x"` and, after stripping all leading `'#'` characters and then
all leading `"0x"` sequences, the remaining character count is one of
{3,4,6,8}; hexadecimal digit content is not checked (`is_valid("#GGGGGG")`
is true).  The claim's concrete instances hold: `is_valid("FF0000")` is
false, `is_valid("#FF0000")` is true, `is_valid("#FF00000")` is false. -/
theorem c4_is_valid_prefix_and_length_only :
    (∀ s : List Char,
      is_valid_color s =
        ((starts_with_hash s || starts_with_0x s) &&
         ((strip_color_prefixes s).length == 3 ||
          (strip_color_prefixes s).length == 4 ||
          (strip_color_prefixes s).length == 6 ||
          (strip_color_prefixes s).length == 8))) ∧
    is_valid_color "FF0000".data = false ∧
    is_valid_color "#FF0000".data = true ∧
    is_valid_color "#FF00000".data = false ∧
    is_valid_color "#GGGGGG".data = true := by
  refine ⟨fun s => ?_, by decide, by decide, by decide, by decide⟩
  cases h : starts_with_hash s || starts_with_0x s <;>
    simp [is_valid_color, h]

/-- Claim C7, counterexample: `to_slint_color_string` strips only `'#'`,
never the `"0x"` prefix, so the codec-accepted 4-digit input `"0xAF00"`
yields `"#0xAF00"` — not a `#RRGGBB` string — and the codec-accepted
8-digit input `"0xCC112233"` falls back to `"#000000"` instead of dropping
the alpha byte. -/
theorem c7_to_display_rgb_counterexample :
    is_valid_color "0xAF00".data = true ∧
    to_slint_color_string "0xAF00".data = "#0xAF00".data ∧
    spec_display_rgb "#0xAF00".data = false ∧
    is_valid_color "0xCC112233".data = true ∧
    to_slint_color_string "0xCC112233".data = "#000000".data := by
  exact ⟨by decide, by decide, by decide, by decide, by decide⟩

/-- Claim C7 as amended: for every codec-accepted input carrying the `'#'`
prefix, `to_slint_color_string` returns a `#RRGGBB` string: 6-digit input
passes through, 8-digit input has its leading alpha byte dropped (not
blended) — `to_display_rgb("#CC112233") = "#112233"` — and 3/4-digit input
falls back to `"#000000"`.  Inputs using the `"0x"` prefix are not covered:
that prefix is not stripped by this function. -/
theorem c7_to_display_rgb_hash_inputs (digits : List Char)
    (hhex : ∀ c ∈ digits, isHexChar c = true) :
    (digits.length = 6 →
      to_slint_color_string ('#' :: digits) = '#' :: digits) ∧
    (digits.length = 8 →
      to_slint_color_string ('#' :: digits) = '#' :: digits.drop 2) ∧
    (digits.length = 3 ∨ digits.length = 4 →
      to_slint_color_string ('#' :: digits) = "#000000".data) ∧
    (is_valid_color ('#' :: digits) = true →
      spec_display_rgb (to_slint_color_string ('#' :: digits)) = true) ∧
    to_slint_color_string "#CC112233".data = "#112233".data := by
  have htrim : trimStartChar '#' ('#' :: digits) = digits := by
    rw [show trimStartChar '#' ('#' :: digits) = trimStartChar '#' digits from
          by simp [trimStartChar],
        trimStartChar_hash_of_hex digits hhex]
  have hstrip : strip_color_prefixes ('#' :: digits) = digits :=
    strip_color_prefixes_pre ['#'] digits (Or.inl rfl) hhex
  have hall : digits.all isHexChar = true := List.all_eq_true.mpr hhex
  refine ⟨?_, ?_, ?_, ?_, by decide⟩
  · intro h6
    simp [to_slint_color_string, htrim, h6]
  · intro h8
    simp [to_slint_color_string, htrim, h8]
  · rintro (h3 | h4)
    · simp [to_slint_color_string, htrim, h3]
    · simp [to_slint_color_string, htrim, h4]
  · intro hv
    rw [is_valid_color] at hv
    simp only [hstrip] at hv
    have hlen : digits.length = 3 ∨ digits.length = 4 ∨
        digits.length = 6 ∨ digits.length = 8 := by
      simp [starts_with_hash] at hv
      tauto
    rcases hlen with h3 | h4 | h6 | h8
    · have hres : to_slint_color_string ('#' :: digits) = "#000000".data := by
        simp [to_slint_color_string, htrim, h3]
      rw [hres]
      decide
    · have hres : to_slint_color_string ('#' :: digits) = "#000000".data := by
        simp [to_slint_color_string, htrim, h4]
      rw [hres]
      decide
    · have hres : to_slint_color_string ('#' :: digits) = '#' :: digits := by
        simp [to_slint_color_string, htrim, h6]
      rw [hres]
      simp [spec_display_rgb, h6, hall]
    · have hres : to_slint_color_string ('#' :: digits) =
          '#' :: digits.drop 2 := by
        simp [to_slint_color_string, htrim, h8]
      rw [hres]
      have halld : (digits.drop 2).all isHexChar = true :=
        List.all_eq_true.mpr
          (fun c hc => hhex c (List.drop_subset 2 digits hc))
      simp [spec_display_rgb, List.length_drop, h8, halld]

/-- Witness for C7 at the 8-digit input `"#CC112233"`. -/
theorem c7_to_display_rgb_hash_inputs_witness :
    (("CC112233".data.length = 6 →
      to_slint_color_string ('#' :: "CC112233".data) =
        '#' :: "CC112233".data) ∧
    ("CC112233".data.length = 8 →
      to_slint_color_string ('#' :: "CC112233".data) =
        '#' :: "CC112233".data.drop 2) ∧
    ("CC112233".data.length = 3 ∨ "CC112233".data.length = 4 →
      to_slint_color_string ('#' :: "CC112233".data) = "#000000".data) ∧
    (is_valid_color ('#' :: "CC112233".data) = true →
      spec_display_rgb (to_slint_color_string ('#' :: "CC112233".data)) =
        true) ∧
    to_slint_color_string "#CC112233".data = "#112233".data) :=
  c7_to_display_rgb_hash_inputs "CC112233".data (by decide)

/-- Claim C3, counterexample: the invalid input `"#G00"` (non-hex digit
`'G'`) is not routed to the single fallback `0xFFFFFFFF`: the failing red
component alone falls back to `0xF` while the others parse, producing the
mixed value `0xFFFF0000`. -/
theorem c3_fallback_counterexample :
    strip_color_prefixes "#G00".data = "G00".data ∧
    ("G00".data.all isHexChar) = false ∧
    hex_to_argb_u32 "#G00".data = 0xFFFF0000 ∧
    hex_to_argb_u32 "#G00".data ≠ 0xFFFFFFFF := by
  exact ⟨by decide, by decide, by decide, by decide⟩

/-- Claim C3 as amended: inputs whose stripped digit count is not one of
{3,4,6,8} (empty strings, other odd or wrong counts) return the policy
fallback `0xFFFFFFFF`, and 6- or 8-digit inputs whose whole-string numeric
parse fails also return `0xFFFFFFFF`; but 3- and 4-digit inputs are parsed
per component with `unwrap_or(0xF)`, so a mix of hex and non-hex digits
yields other values, e.g. `parse_argb("#G00") = 0xFFFF0000`. -/
theorem c3_fallback_routes (s t : List Char)
    (hs : ¬((strip_color_prefixes s).length = 3 ∨
            (strip_color_prefixes s).length = 4 ∨
            (strip_color_prefixes s).length = 6 ∨
            (strip_color_prefixes s).length = 8))
    (ht : (strip_color_prefixes t).length = 6 ∨
          (strip_color_prefixes t).length = 8)
    (htf : from_str_radix_16 (strip_color_prefixes t) = none) :
    hex_to_argb_u32 s = 0xFFFFFFFF ∧
    hex_to_argb_u32 t = 0xFFFFFFFF ∧
    hex_to_argb_u32 "#G00".data = 0xFFFF0000 := by
  push_neg at hs
  obtain ⟨hs3, hs4, hs6, hs8⟩ := hs
  refine ⟨?_, ?_, by decide⟩
  · exact argb_of_len_other s hs3 hs4 hs6 hs8
  · rcases ht with h6 | h8
    · rw [argb_of_len6 t h6, htf]
      decide
    · rw [argb_of_len8 t h8, htf]
      decide

/-- Witness for C3 at `"invalid"` (length 7) and `"#ZZZZZZ"` (6 non-hex
digits). -/
theorem c3_fallback_routes_witness :
    hex_to_argb_u32 "invalid".data = 0xFFFFFFFF ∧
    hex_to_argb_u32 "#ZZZZZZ".data = 0xFFFFFFFF ∧
    hex_to_argb_u32 "#G00".data = 0xFFFF0000 :=
  c3_fallback_routes "invalid".data "#ZZZZZZ".data (by decide) (by decide)
    (by decide)

/-! ### Hexadecimal parsing lemmas for C6 -/

theorem hexDigitVal_lt {c : Char} {v : Nat} (h : hexDigitVal c = some v) :
    v < 16 := by
  unfold hexDigitVal at h
  split_ifs at h with h1 h2 h3 <;> simp at h <;> omega

theorem from_str_radix_16_single {c : Char} {v : Nat}
    (h : hexDigitVal c = some v) : from_str_radix_16 [c] = some v := by
  have hlt := hexDigitVal_lt h
  have hplus : ¬(c = '+') := by
    rintro rfl
    rw [show hexDigitVal '+' = none from by decide] at h
    exact Option.noConfusion h
  have hminus : ¬(c = '-') := by
    rintro rfl
    rw [show hexDigitVal '-' = none from by decide] at h
    exact Option.noConfusion h
  have hb : 0 * 16 + v < 2 ^ 32 := by omega
  simp [from_str_radix_16, hplus, hminus, parseHexAcc, h, hb]
  omega

theorem le_foldVal (l : List Char) : ∀ acc, acc ≤ foldVal acc l := by
  induction l with
  | nil => intro acc; simp [foldVal]
  | cons c cs ih =>
    intro acc
    have h1 : acc ≤ acc * 16 + (hexDigitVal c).getD 0 := by omega
    have h2 := ih (acc * 16 + (hexDigitVal c).getD 0)
    simp only [foldVal]
    omega

theorem parseHexAcc_eq_foldVal (l : List Char) :
    ∀ acc, (∀ c ∈ l, isHexChar c = true) → foldVal acc l < 2 ^ 32 →
      parseHexAcc acc l = some (foldVal acc l) := by
  induction l with
  | nil => intro acc _ _; rfl
  | cons c cs ih =>
    intro acc hhex hb
    have hc : (hexDigitVal c).isSome = true := hhex c (by simp)
    obtain ⟨d, hd⟩ := Option.isSome_iff_exists.mp hc
    have hstep : foldVal acc (c :: cs) = foldVal (acc * 16 + d) cs := by
      simp [foldVal, hd]
    have hle : acc * 16 + d ≤ foldVal (acc * 16 + d) cs := le_foldVal cs _
    rw [hstep] at hb
    simp only [parseHexAcc, hd]
    rw [if_pos (by omega)]
    rw [ih _ (fun x hx => hhex x (by simp [hx])) hb, hstep]

theorem from_str_radix_16_of_hex (c : Char) (cs : List Char)
    (hhex : ∀ x ∈ c :: cs, isHexChar x = true)
    (hb : foldVal 0 (c :: cs) < 2 ^ 32) :
    from_str_radix_16 (c :: cs) = some (foldVal 0 (c :: cs)) := by
  have hc : isHexChar c = true := hhex c (by simp)
  have hplus : ¬(c = '+') := by
    rintro rfl
    exact absurd hc (by decide)
  have hminus : ¬(c = '-') := by
    rintro rfl
    exact absurd hc (by decide)
  simp only [from_str_radix_16, if_neg hplus, if_neg hminus]
  exact parseHexAcc_eq_foldVal _ _ hhex hb

/-- Disjoint bit ranges turn bitwise or into addition. -/
theorem or_eq_add {k a b : Nat} (ha : a % 2 ^ k = 0) (hb : b < 2 ^ k) :
    a ||| b = a + b := by
  obtain ⟨q, hq⟩ := Nat.dvd_of_mod_eq_zero ha
  subst hq
  exact (Nat.mul_add_lt_is_or hb q).symm

/-- Closed arithmetic form of the 3-digit branch result. -/
theorem argb3_lor_eq (vr vg vb : Nat) (h1 : vr < 16) (h2 : vg < 16)
    (h3 : vb < 16) :
    0xFF000000 ||| ((vr * 17) <<< 16) ||| ((vg * 17) <<< 8) ||| (vb * 17) =
      0xFF000000 + vr * 1114112 + vg * 4352 + vb * 17 := by
  have e16 : (2 : Nat) ^ 16 = 65536 := by norm_num
  have e8 : (2 : Nat) ^ 8 = 256 := by norm_num
  have e24 : (2 : Nat) ^ 24 = 16777216 := by norm_num
  have s1 : (0xFF000000 : Nat) ||| ((vr * 17) <<< 16) =
      0xFF000000 + vr * 17 * 2 ^ 16 := by
    rw [Nat.shiftLeft_eq]
    exact or_eq_add (k := 24) (by norm_num) (by omega)
  have s2 : (0xFF000000 + vr * 17 * 2 ^ 16) ||| ((vg * 17) <<< 8) =
      0xFF000000 + vr * 17 * 2 ^ 16 + vg * 17 * 2 ^ 8 := by
    rw [Nat.shiftLeft_eq]
    exact or_eq_add (k := 16) (by omega) (by omega)
  have s3 : (0xFF000000 + vr * 17 * 2 ^ 16 + vg * 17 * 2 ^ 8) ||| (vb * 17) =
      0xFF000000 + vr * 17 * 2 ^ 16 + vg * 17 * 2 ^ 8 + vb * 17 := by
    exact or_eq_add (k := 8) (by omega) (by omega)
  rw [s1, s2, s3]
  omega

/-- Closed arithmetic form of the 4-digit branch result. -/
theorem argb4_lor_eq (va vr vg vb : Nat) (h0 : va < 16) (h1 : vr < 16)
    (h2 : vg < 16) (h3 : vb < 16) :
    ((va * 17) <<< 24) ||| ((vr * 17) <<< 16) ||| ((vg * 17) <<< 8) |||
        (vb * 17) =
      va * 285212672 + vr * 1114112 + vg * 4352 + vb * 17 := by
  have e16 : (2 : Nat) ^ 16 = 65536 := by norm_num
  have e8 : (2 : Nat) ^ 8 = 256 := by norm_num
  have e24 : (2 : Nat) ^ 24 = 16777216 := by norm_num
  have s1 : ((va * 17) <<< 24) ||| ((vr * 17) <<< 16) =
      va * 17 * 2 ^ 24 + vr * 17 * 2 ^ 16 := by
    rw [Nat.shiftLeft_eq, Nat.shiftLeft_eq]
    exact or_eq_add (k := 24) (by omega) (by omega)
  have s2 : (va * 17 * 2 ^ 24 + vr * 17 * 2 ^ 16) ||| ((vg * 17) <<< 8) =
      va * 17 * 2 ^ 24 + vr * 17 * 2 ^ 16 + vg * 17 * 2 ^ 8 := by
    rw [Nat.shiftLeft_eq]
    exact or_eq_add (k := 16) (by omega) (by omega)
  have s3 : (va * 17 * 2 ^ 24 + vr * 17 * 2 ^ 16 + vg * 17 * 2 ^ 8) |||
        (vb * 17) =
      va * 17 * 2 ^ 24 + vr * 17 * 2 ^ 16 + vg * 17 * 2 ^ 8 + vb * 17 := by
    exact or_eq_add (k := 8) (by omega) (by omega)
  rw [s1, s2, s3]
  omega

/-- Claim C6: for every valid 3- or 4-digit hex color string (with either
recognized prefix), `hex_to_argb_u32` equals `hex_to_argb_u32` of the
nibble-doubled 6- or 8-digit form; the missing alpha of the 3-digit form
defaults to `0xFF`; and the claim's concrete instances hold:
`parse_argb("#F00") = parse_argb("#FF0000") = 0xFFFF0000` and
`parse_argb("#80000000") = 0x80000000` (alpha preserved exactly). -/
theorem c6_parse_argb_nibble_doubling (pre : List Char)
    (hpre : pre = ['#'] ∨ pre = ['0', 'x'])
    (a r g b : Char) (ha : isHexChar a = true) (hr : isHexChar r = true)
    (hg : isHexChar g = true) (hb : isHexChar b = true) :
    hex_to_argb_u32 (pre ++ [r, g, b]) =
      hex_to_argb_u32 (pre ++ [r, r, g, g, b, b]) ∧
    hex_to_argb_u32 (pre ++ [a, r, g, b]) =
      hex_to_argb_u32 (pre ++ [a, a, r, r, g, g, b, b]) ∧
    hex_to_argb_u32 (pre ++ [r, g, b]) / 2 ^ 24 = 0xFF ∧
    hex_to_argb_u32 "#F00".data = 0xFFFF0000 ∧
    hex_to_argb_u32 "#FF0000".data = 0xFFFF0000 ∧
    hex_to_argb_u32 "#80000000".data = 0x80000000 := by
  obtain ⟨va, hva⟩ := Option.isSome_iff_exists.mp
    (show (hexDigitVal a).isSome = true from ha)
  obtain ⟨vr, hvr⟩ := Option.isSome_iff_exists.mp
    (show (hexDigitVal r).isSome = true from hr)
  obtain ⟨vg, hvg⟩ := Option.isSome_iff_exists.mp
    (show (hexDigitVal g).isSome = true from hg)
  obtain ⟨vb, hvb⟩ := Option.isSome_iff_exists.mp
    (show (hexDigitVal b).isSome = true from hb)
  have bva := hexDigitVal_lt hva
  have bvr := hexDigitVal_lt hvr
  have bvg := hexDigitVal_lt hvg
  have bvb := hexDigitVal_lt hvb
  have hmem3 : ∀ c ∈ [r, g, b], isHexChar c = true := by
    intro c hc
    simp only [List.mem_cons, List.not_mem_nil, or_false] at hc
    rcases hc with rfl | rfl | rfl <;> assumption
  have hmem6 : ∀ c ∈ [r, r, g, g, b, b], isHexChar c = true := by
    intro c hc
    simp only [List.mem_cons, List.not_mem_nil, or_false] at hc
    rcases hc with rfl | rfl | rfl | rfl | rfl | rfl <;> assumption
  have hmem4 : ∀ c ∈ [a, r, g, b], isHexChar c = true := by
    intro c hc
    simp only [List.mem_cons, List.not_mem_nil, or_false] at hc
    rcases hc with rfl | rfl | rfl | rfl <;> assumption
  have hmem8 : ∀ c ∈ [a, a, r, r, g, g, b, b], isHexChar c = true := by
    intro c hc
    simp only [List.mem_cons, List.not_mem_nil, or_false] at hc
    rcases hc with rfl | rfl | rfl | rfl | rfl | rfl | rfl | rfl <;>
      assumption
  have hs3 := strip_color_prefixes_pre pre [r, g, b] hpre hmem3
  have hs6 := strip_color_prefixes_pre pre [r, r, g, g, b, b] hpre hmem6
  have hs4 := strip_color_prefixes_pre pre [a, r, g, b] hpre hmem4
  have hs8 :=
    strip_color_prefixes_pre pre [a, a, r, r, g, g, b, b] hpre hmem8
  have e3 : hex_to_argb_u32 (pre ++ [r, g, b]) =
      0xFF000000 ||| ((vr * 17) <<< 16) ||| ((vg * 17) <<< 8) |||
        (vb * 17) := by
    rw [argb_of_len3 _ (by rw [hs3]; rfl)]
    rw [hs3]
    simp only [show ([r, g, b].take 1) = [r] from rfl,
      show (([r, g, b].drop 1).take 1) = [g] from rfl,
      show (([r, g, b].drop 2).take 1) = [b] from rfl,
      from_str_radix_16_single hvr, from_str_radix_16_single hvg,
      from_str_radix_16_single hvb, Option.getD_some]
  have e4 : hex_to_argb_u32 (pre ++ [a, r, g, b]) =
      ((va * 17) <<< 24) ||| ((vr * 17) <<< 16) ||| ((vg * 17) <<< 8) |||
        (vb * 17) := by
    rw [argb_of_len4 _ (by rw [hs4]; rfl)]
    rw [hs4]
    simp only [show ([a, r, g, b].take 1) = [a] from rfl,
      show (([a, r, g, b].drop 1).take 1) = [r] from rfl,
      show (([a, r, g, b].drop 2).take 1) = [g] from rfl,
      show (([a, r, g, b].drop 3).take 1) = [b] from rfl,
      from_str_radix_16_single hva, from_str_radix_16_single hvr,
      from_str_radix_16_single hvg, from_str_radix_16_single hvb,
      Option.getD_some]
  have hb6 : foldVal 0 [r, r, g, g, b, b] < 2 ^ 32 := by
    simp [foldVal, hvr, hvg, hvb]
    omega
  have hb8 : foldVal 0 [a, a, r, r, g, g, b, b] < 2 ^ 32 := by
    simp [foldVal, hva, hvr, hvg, hvb]
    omega
  have e6 : hex_to_argb_u32 (pre ++ [r, r, g, g, b, b]) =
      0xFF000000 ||| foldVal 0 [r, r, g, g, b, b] := by
    rw [argb_of_len6 _ (by rw [hs6]; rfl)]
    rw [hs6, from_str_radix_16_of_hex r [r, g, g, b, b] hmem6 hb6,
      Option.getD_some]
  have e8 : hex_to_argb_u32 (pre ++ [a, a, r, r, g, g, b, b]) =
      foldVal 0 [a, a, r, r, g, g, b, b] := by
    rw [argb_of_len8 _ (by rw [hs8]; rfl)]
    rw [hs8,
      from_str_radix_16_of_hex a [a, r, r, g, g, b, b] hmem8 hb8,
      Option.getD_some]
  have hN24 : foldVal 0 [r, r, g, g, b, b] < 2 ^ 24 := by
    simp [foldVal, hvr, hvg, hvb]
    omega
  refine ⟨?_, ?_, ?_, by decide, by decide, by decide⟩
  · rw [e3, e6, argb3_lor_eq vr vg vb bvr bvg bvb,
      or_eq_add (k := 24) (by norm_num) hN24]
    simp only [foldVal, hvr, hvg, hvb, Option.getD_some]
    omega
  · rw [e4, e8, argb4_lor_eq va vr vg vb bva bvr bvg bvb]
    simp only [foldVal, hva, hvr, hvg, hvb, Option.getD_some]
    omega
  · rw [e3, argb3_lor_eq vr vg vb bvr bvg bvb,
      show (2 : Nat) ^ 24 = 16777216 from by norm_num]
    omega

/-- Witness for C6 at `"#8F00"` / `"#88FF0000"` (and `"#F00"`). -/
theorem c6_parse_argb_nibble_doubling_witness :
    hex_to_argb_u32 (['#'] ++ ['F', '0', '0']) =
      hex_to_argb_u32 (['#'] ++ ['F', 'F', '0', '0', '0', '0']) ∧
    hex_to_argb_u32 (['#'] ++ ['8', 'F', '0', '0']) =
      hex_to_argb_u32 (['#'] ++ ['8', '8', 'F', 'F', '0', '0', '0', '0']) ∧
    hex_to_argb_u32 (['#'] ++ ['F', '0', '0']) / 2 ^ 24 = 0xFF ∧
    hex_to_argb_u32 "#F00".data = 0xFFFF0000 ∧
    hex_to_argb_u32 "#FF0000".data = 0xFFFF0000 ∧
    hex_to_argb_u32 "#80000000".data = 0x80000000 :=
  c6_parse_argb_nibble_doubling ['#'] (Or.inl rfl) '8' 'F' '0' '0'
    (by decide) (by decide) (by decide) (by decide)

end SubsOverlay
